import Mathlib

/-!
Verification of the 4n6time-go query/storage layer.

This file gives a shallow embedding, in Lean, of the predicate algebra and
query builder (`internal/csvparser/csvparser.go`, package `query`, which
contains two concatenated copies: a dialect-parameterized one and a legacy
SQLite-only one), the query dialects (`sqliteQueryDialect`,
`PostgresDialect`), the field whitelist (`internal/model`), and the pure
control-flow skeletons of the database-side operations (`InsertEvents`,
`migrate`, `GetTimelineHistogram`) with the SQL driver abstracted as
explicit inputs.  Theorems at the end settle the frozen claims about this
code.
-/

namespace FourN6

/-! ## model.Fields (src/unnamed/part_009)

The ordered list of column names in the log2timeline table.  Note that
"bookmark" is not in this list. -/

namespace model

def Fields : List String :=
  ["datetime", "timezone", "MACB", "source", "sourcetype", "type",
   "user", "host", "desc", "filename", "inode",
   "notes", "format", "extra", "reportnotes", "inreport",
   "tag", "color", "offset", "store_number", "store_index",
   "vss_store_number", "URL", "record_number", "event_identifier",
   "event_type", "source_name", "user_sid", "computer_name"]

end model

/-! ## package query: predicate algebra (csvparser.go, first copy, lines 413-841) -/

namespace query

/-- `Logic` determines how multiple predicates are combined. -/
inductive Logic where
  | AND
  | OR
deriving DecidableEq, Repr

/-- Go's `Operator` is a string type; the six named constants. -/
def Equal : String := "="

def NotEqual : String := "!="

def Like : String := "LIKE"

def NotLike : String := "NOT LIKE"

def GreaterOrEqual : String := ">="

def LessOrEqual : String := "<="

/-- `validOperators` membership test (the Go map lookup `validOperators[op]`). -/
def validOperators (op : String) : Bool :=
  op == Equal || op == NotEqual || op == Like || op == NotLike ||
  op == GreaterOrEqual || op == LessOrEqual

/-- `isValidField` checks a field name against the known columns
(the loop over `model.Fields`). -/
def isValidField (name : String) : Bool :=
  model.Fields.any (fun f => f == name)

/-- The `Predicate` struct, as a closed sum over its `kind` tag.
Go's `left`/`right` pointers in a composite are always non-nil when built
through the exported constructors, so children are plain `Predicate`s here;
the zero-value kind `predNone` is kept (it renders to the empty fragment,
exactly as a nil pointer does in `whereClauseWithDialect`). -/
inductive Predicate where
  | pnone
  | simple (field : String) (op : String) (value : String)
  | date (date1 : String) (date2 : String)
  | composite (left : Predicate) (right : Predicate) (logic : Logic)
deriving DecidableEq, Repr

/-- The `QueryDialect` interface (src/unnamed/part_008). -/
structure QueryDialect where
  Placeholder : Nat → String
  IDColumn : String
  QuoteColumn : String → String
  DateBetweenSQL : Nat → Nat → String

/-- `sqliteQueryDialect`: the default dialect, producing SQLite-compatible SQL. -/
def sqliteQueryDialect : QueryDialect where
  Placeholder := fun _ => "?"
  IDColumn := "rowid"
  QuoteColumn := fun name => name
  DateBetweenSQL := fun _ _ => "(datetime BETWEEN datetime(?) AND datetime(?))"

/-- `DefaultDialect` is the query dialect used when none is explicitly set. -/
def DefaultDialect : QueryDialect := sqliteQueryDialect

/-- `Simple` creates a predicate comparing a field to a value.
Returns `none` (Go: nil) if the field name is invalid or the operator is
unrecognized. -/
def Simple (field : String) (op : String) (value : String) : Option Predicate :=
  if !(isValidField field) || !(validOperators op) then
    none
  else
    some (.simple field op value)

/-- `DateRange` creates a predicate filtering events between two datetimes. -/
def DateRange (date1 date2 : String) : Option Predicate :=
  some (.date date1 date2)

/-- `Combine` joins multiple predicates with the given logic.  `none`
elements (Go: nil pointers) are filtered out first; an empty result gives
`none`, a singleton gives that element, and more elements fold into a
left-leaning chain of composites (the Go loop from index 2). -/
def Combine (preds : List (Option Predicate)) (logic : Logic) : Option Predicate :=
  let filtered := preds.filterMap id
  match filtered with
  | [] => none
  | [p] => some p
  | p0 :: p1 :: rest =>
      some (rest.foldl (fun result p => Predicate.composite result p logic)
        (Predicate.composite p0 p1 logic))

/-- `whereClauseWithDialect` generates the WHERE fragment using the given
dialect.  `startIdx` is the 1-based parameter index for numbered
placeholder styles.  Returns the SQL fragment, parameter values, and the
next available parameter index.  (Argument values are all strings in this
layer, so the `[]interface{}` list is embedded as `List String`.) -/
def Predicate.whereClauseWithDialect :
    Predicate → QueryDialect → Nat → String × List String × Nat
  | .pnone, _, startIdx => ("", [], startIdx)
  | .simple field op value, d, startIdx =>
      let placeholder := d.Placeholder startIdx
      let quotedField := d.QuoteColumn field
      if op == Like || op == NotLike then
        ("(" ++ quotedField ++ " " ++ op ++ " " ++ placeholder ++ ")",
          ["%" ++ value ++ "%"], startIdx + 1)
      else
        ("(" ++ quotedField ++ " " ++ op ++ " " ++ placeholder ++ ")",
          [value], startIdx + 1)
  | .date date1 date2, d, startIdx =>
      (d.DateBetweenSQL startIdx (startIdx + 1), [date1, date2], startIdx + 2)
  | .composite left right logic, d, startIdx =>
      let r1 := left.whereClauseWithDialect d startIdx
      let r2 := right.whereClauseWithDialect d r1.2.2
      if r1.1 == "" && r2.1 == "" then
        ("", [], r2.2.2)
      else if r1.1 == "" then
        (r2.1, r2.2.1, r2.2.2)
      else if r2.1 == "" then
        (r1.1, r1.2.1, r1.2.2)
      else
        let logicStr := if logic = Logic.OR then "OR" else "AND"
        ("(" ++ r1.1 ++ " " ++ logicStr ++ " " ++ r2.1 ++ ")",
          r1.2.1 ++ r2.2.1, r2.2.2)

/-- `WhereClause` uses the default dialect (SQLite), dropping the index. -/
def Predicate.WhereClause (p : Predicate) : String × List String :=
  let r := p.whereClauseWithDialect DefaultDialect 1
  (r.1, r.2.1)

/-- The `Query` struct: predicates, combining logic, order column,
pagination, and the active dialect.  `predicates` holds only non-nil
pointers in Go (`AddPredicate` skips nil), so it is a `List Predicate`. -/
structure Query where
  predicates : List Predicate
  logic : Logic
  orderBy : String
  pageSize : Int
  page : Int
  dialect : QueryDialect

/-- `New` creates a Query with the given page size (0 for no pagination). -/
def New (pageSize : Int) : Query where
  predicates := []
  logic := .AND
  orderBy := ""
  pageSize := pageSize
  page := 1
  dialect := DefaultDialect

/-- `SetDialect` sets the SQL dialect used for query generation. -/
def Query.SetDialect (q : Query) (d : QueryDialect) : Query :=
  { q with dialect := d }

/-- `SetLogic` sets how top-level predicates are combined. -/
def Query.SetLogic (q : Query) (logic : Logic) : Query :=
  { q with logic := logic }

/-- `AddPredicate` appends a predicate; nil (`none`) predicates are ignored. -/
def Query.AddPredicate (q : Query) (p : Option Predicate) : Query :=
  match p with
  | none => q
  | some p => { q with predicates := q.predicates ++ [p] }

/-- `OrderBy` sets the sort column.  An empty string clears ordering.
The Go method mutates the receiver and returns an `error`; here it returns
the updated query together with the optional error message, leaving the
query unchanged in the error case. -/
def Query.OrderBy (q : Query) (field : String) : Query × Option String :=
  if field == "" then
    ({ q with orderBy := "" }, none)
  else if !(isValidField field) && field != q.dialect.IDColumn then
    (q, some ("invalid order by field: " ++ field))
  else
    ({ q with orderBy := field }, none)

/-- `SetPage` sets the 1-based page number; values below 1 are ignored. -/
def Query.SetPage (q : Query) (page : Int) : Query :=
  if page ≥ 1 then { q with page := page } else q

/-- `Build` generates the full SELECT statement and its parameter values. -/
def Query.Build (q : Query) : String × List String :=
  let idCol := q.dialect.IDColumn
  let quotedFields := model.Fields.map q.dialect.QuoteColumn
  let selectFields := idCol ++ ", " ++ String.intercalate ", " quotedFields
  let sql0 := "SELECT " ++ selectFields ++ " FROM log2timeline"
  let withWhere :=
    if q.predicates.length > 0 then
      match Combine (q.predicates.map some) q.logic with
      | some combined =>
          let r := combined.whereClauseWithDialect q.dialect 1
          if r.1 != "" then (sql0 ++ " WHERE " ++ r.1, r.2.1) else (sql0, [])
      | none => (sql0, [])
    else (sql0, [])
  let withOrder :=
    if q.orderBy != "" then
      (withWhere.1 ++ " ORDER BY " ++ q.dialect.QuoteColumn q.orderBy, withWhere.2)
    else withWhere
  if q.pageSize > 0 then
    let offset := q.pageSize * (q.page - 1)
    (withOrder.1 ++ " LIMIT " ++ toString q.pageSize ++ " OFFSET " ++ toString offset,
      withOrder.2)
  else withOrder

/-- `BuildCount` generates a COUNT query using the same predicates. -/
def Query.BuildCount (q : Query) : String × List String :=
  let idCol := q.dialect.IDColumn
  let sql0 := "SELECT COUNT(" ++ idCol ++ ") FROM log2timeline"
  if q.predicates.length > 0 then
    match Combine (q.predicates.map some) q.logic with
    | some combined =>
        let r := combined.whereClauseWithDialect q.dialect 1
        if r.1 != "" then (sql0 ++ " WHERE " ++ r.1, r.2.1) else (sql0, [])
    | none => (sql0, [])
  else (sql0, [])

end query

/-! ## database dialects (src/unnamed/part_011, part_012)

Only the methods the claims exercise are embedded: the query-building
surface (placeholder, id column, quoting, date-between) shared with
`query.QueryDialect`, plus `DateFormatSQL` used by the histogram. -/

namespace database

/-- `pgQuoteCol` wraps a column name in double quotes if it is a
PostgreSQL reserved word (user, desc, offset). -/
def pgQuoteCol (name : String) : String :=
  if name == "user" || name == "desc" || name == "offset" then
    "\x22" ++ name ++ "\x22"
  else
    name

/-- `strftimeToPostgres`: the SQLite strftime format strings used by
`GetTimelineHistogram`, mapped to their PostgreSQL `to_char` equivalents. -/
def strftimeToPostgres (format : String) : Option String :=
  if format == "%Y-%m-%d %H:00:00" then some "YYYY-MM-DD HH24:00:00"
  else if format == "%Y-%m-%d" then some "YYYY-MM-DD"
  else if format == "%Y-%m" then some "YYYY-MM"
  else none

/-- `PostgresDialect`, viewed through the `query.QueryDialect` surface it
satisfies structurally (Placeholder, IDColumn, QuoteColumn, DateBetweenSQL). -/
def PostgresQueryDialect : query.QueryDialect where
  Placeholder := fun index => "$" ++ toString index
  IDColumn := "id"
  QuoteColumn := pgQuoteCol
  DateBetweenSQL := fun paramIdx1 paramIdx2 =>
    "(datetime BETWEEN " ++ ("$" ++ toString paramIdx1) ++ " AND "
      ++ ("$" ++ toString paramIdx2) ++ ")"

/-- `SQLiteDialect.DateFormatSQL`. -/
def sqliteDateFormatSQL (column format : String) : String :=
  "strftime('" ++ format ++ "', " ++ column ++ ")"

/-- `PostgresDialect.DateFormatSQL`: translates the strftime vocabulary to
`to_char`, passing unknown formats through unchanged. -/
def pgDateFormatSQL (column format : String) : String :=
  let pgFmt := match strftimeToPostgres format with
    | some f => f
    | none => format
  "to_char(" ++ column ++ ", '" ++ pgFmt ++ "')"

end database

/-! ## package query, second (legacy SQLite-only) copy
(csvparser.go lines 843-1242): no dialect parameter, no index threading. -/

namespace legacyquery

open query (Logic Predicate isValidField Like NotLike)

/-- Legacy `Predicate.WhereClause`: the dialect-free SQLite renderer. -/
def WhereClause : Predicate → String × List String
  | .pnone => ("", [])
  | .simple field op value =>
      if op == Like || op == NotLike then
        ("(" ++ field ++ " " ++ op ++ " ?)", ["%" ++ value ++ "%"])
      else
        ("(" ++ field ++ " " ++ op ++ " ?)", [value])
  | .date date1 date2 =>
      ("(datetime BETWEEN datetime(?) AND datetime(?))", [date1, date2])
  | .composite left right logic =>
      let r1 := WhereClause left
      let r2 := WhereClause right
      if r1.1 == "" && r2.1 == "" then
        ("", [])
      else if r1.1 == "" then
        r2
      else if r2.1 == "" then
        r1
      else
        let logicStr := if logic = Logic.OR then "OR" else "AND"
        ("(" ++ r1.1 ++ " " ++ logicStr ++ " " ++ r2.1 ++ ")", r1.2 ++ r2.2)

/-- The legacy `Query` struct, with no dialect field. -/
structure Query where
  predicates : List Predicate
  logic : Logic
  orderBy : String
  pageSize : Int
  page : Int

/-- Legacy `Query.Build`: hard-coded `rowid` and unquoted columns. -/
def Query.Build (q : Query) : String × List String :=
  let selectFields := "rowid, " ++ String.intercalate ", " model.Fields
  let sql0 := "SELECT " ++ selectFields ++ " FROM log2timeline"
  let withWhere :=
    if q.predicates.length > 0 then
      match query.Combine (q.predicates.map some) q.logic with
      | some combined =>
          let r := WhereClause combined
          if r.1 != "" then (sql0 ++ " WHERE " ++ r.1, r.2) else (sql0, [])
      | none => (sql0, [])
    else (sql0, [])
  let withOrder :=
    if q.orderBy != "" then
      (withWhere.1 ++ " ORDER BY " ++ q.orderBy, withWhere.2)
    else withWhere
  if q.pageSize > 0 then
    let offset := q.pageSize * (q.page - 1)
    (withOrder.1 ++ " LIMIT " ++ toString q.pageSize ++ " OFFSET " ++ toString offset,
      withOrder.2)
  else withOrder

/-- Legacy `Query.BuildCount`: hard-coded `COUNT(rowid)` projection. -/
def Query.BuildCount (q : Query) : String × List String :=
  let sql0 := "SELECT COUNT(rowid) FROM log2timeline"
  if q.predicates.length > 0 then
    match query.Combine (q.predicates.map some) q.logic with
    | some combined =>
        let r := WhereClause combined
        if r.1 != "" then (sql0 ++ " WHERE " ++ r.1, r.2) else (sql0, [])
    | none => (sql0, [])
  else (sql0, [])

end legacyquery

/-! ## App.QueryEvents query construction (src/app.go, second copy, lines 979-1099)

Only the pure query-building portion is embedded; execution against the
store is out of scope for the claims. -/

namespace app

structure FilterItem where
  Field : String
  Operator : String
  Value : String

structure QueryRequest where
  Filters : List FilterItem
  Logic : String
  OrderBy : String
  Page : Int
  PageSize : Int
  SearchText : String
  BookmarkOnly : Bool

/-- The `switch f.Operator` mapping; unknown operators hit `continue`. -/
def mapOperator (s : String) : Option String :=
  if s == "=" then some query.Equal
  else if s == "!=" then some query.NotEqual
  else if s == "LIKE" then some query.Like
  else if s == "NOT LIKE" then some query.NotLike
  else if s == ">=" then some query.GreaterOrEqual
  else if s == "<=" then some query.LessOrEqual
  else none

/-- The full-text search column list used by `QueryEvents`. -/
def searchFields : List String :=
  ["desc", "filename", "source", "sourcetype", "type",
   "user", "host", "extra", "tag", "url", "source_name",
   "computer_name", "format", "notes"]

/-- The query `App.QueryEvents` assembles from a request before calling
`Build`/`BuildCount`.  Mirrors app.go: page-size default, logic, filter
loop, full-text OR block, bookmark filter, order-by (error discarded),
and page clamp. -/
def buildQuery (d : query.QueryDialect) (req : QueryRequest) : query.Query :=
  let pageSize := if req.PageSize ≤ 0 then 1000 else req.PageSize
  let q := query.New pageSize
  let q := q.SetDialect d
  let q := if req.Logic == "OR" then q.SetLogic .OR else q
  let q := req.Filters.foldl (fun q f =>
    match mapOperator f.Operator with
    | none => q
    | some op => q.AddPredicate (query.Simple f.Field op f.Value)) q
  let q :=
    if req.SearchText != "" then
      let searchPreds := searchFields.filterMap
        (fun field => query.Simple field query.Like req.SearchText)
      if searchPreds.length > 0 then
        q.AddPredicate (query.Combine (searchPreds.map some) .OR)
      else q
    else q
  let q :=
    if req.BookmarkOnly then
      q.AddPredicate (query.Simple "bookmark" query.Equal "1")
    else q
  let q := if req.OrderBy != "" then (q.OrderBy req.OrderBy).1 else q
  let page := if req.Page < 1 then 1 else req.Page
  q.SetPage page

/-- The `(SQL, args)` pairs `QueryEvents` hands to the store: the row scan
from `Build` and the count from `BuildCount`. -/
def QueryEventsSQL (d : query.QueryDialect) (req : QueryRequest) :
    (String × List String) × (String × List String) :=
  let q := buildQuery d req
  (q.Build, q.BuildCount)

end app

/-! ## database layer control-flow skeletons (internal/database/database.go,
src/unnamed/part_013)

The SQL driver is abstracted as explicit inputs: per-row insert failures as
an oracle on the 1-based row position, query-row results as values, NULL
columns as `Option String`. -/

namespace database

/-- The `InsertEvents` row loop (identical in `SQLiteStore.InsertEvents`
and `PostgresStore.InsertEvents`; the Postgres copy only sanitizes the
values passed to `stmt.Exec`, which does not alter control flow).
`fail pos` says whether `stmt.Exec` fails on the row at 1-based position
`pos`.  Returns `(inserted, errored, progress-callback invocations)`. -/
def insertLoop {α : Type} (fail : Nat → Bool) (withProgress : Bool) :
    List α → Nat → Nat × Bool × List Nat
  | [], inserted => (inserted, false, [])
  | _e :: rest, inserted =>
      if fail (inserted + 1) then
        (inserted, true, [])
      else
        let inserted' := inserted + 1
        let calls := if withProgress && inserted' % 10000 == 0 then [inserted'] else []
        let r := insertLoop fail withProgress rest inserted'
        (r.1, r.2.1, calls ++ r.2.2)

/-- `InsertEvents`: one transaction around the row loop.  On any row
failure the deferred `tx.Rollback()` leaves the table unchanged and the
call reports the count staged so far with the error; otherwise all rows
are committed.  (`Begin`/`Prepare`/`Commit` failures, which the claims do
not touch, are abstracted as succeeding.) -/
def InsertEvents {α : Type} (table : List α) (events : List α)
    (fail : Nat → Bool) (withProgress : Bool) :
    List α × Nat × Bool × List Nat :=
  let r := insertLoop fail withProgress events 0
  if r.2.1 then
    (table, r.1, true, r.2.2)
  else
    (table ++ events, r.1, false, r.2.2)

/-- The successful-insert counts at which the progress callback fires when
`count` rows were staged: every multiple of 10,000 up to `count`. -/
def progressCallsFrom (start n : Nat) : List Nat :=
  (List.range n).filterMap
    (fun i => if (start + i + 1) % 10000 == 0 then some (start + i + 1) else none)

/-- `migrate` (both stores): probe for the bookmark column; when the probe
succeeds with count 0, issue the ALTER, discarding its result.  Returns
the statements issued and the error surfaced to the caller (none, by
construction mirroring the Go bodies, which check `err` only to decide
whether to alter and ignore `Exec`'s result entirely). -/
def migrateRun (probeResult : Except String Int)
    (alterResult : Except String Unit) : List String × Option String :=
  match probeResult with
  | .ok count =>
      if count == 0 then
        let _ := alterResult
        (["ALTER TABLE log2timeline ADD COLUMN bookmark INT DEFAULT 0"], none)
      else ([], none)
  | .error _ => ([], none)

/-- Exported `Migrate` (both stores): calls `migrate` and returns nil. -/
def Migrate (probeResult : Except String Int)
    (alterResult : Except String Unit) : Except String Unit :=
  let _ := migrateRun probeResult alterResult
  Except.ok ()

/-- `OpenSQLite` / `OpenPostgres` shared control flow: open, ping, migrate
(best-effort), return the store.  Only open and ping failures propagate. -/
def OpenStoreFlow (openResult pingResult : Except String Unit)
    (probeResult : Except String Int) (alterResult : Except String Unit) :
    Except String Unit :=
  match openResult with
  | .error e => .error ("opening database: " ++ e)
  | .ok _ =>
      match pingResult with
      | .error e => .error ("connecting to database: " ++ e)
      | .ok _ =>
          let _ := migrateRun probeResult alterResult
          .ok ()

/-- `TimelineBucket`: timestamp label plus event count. -/
structure TimelineBucket where
  Timestamp : String
  Count : Int
deriving DecidableEq, Repr

/-- database/sql `Scan` of a possibly-NULL column into a Go `string`
destination: a NULL (here `none`) produces a conversion error rather than
an empty string.  Modelled from the Go standard library's
`convertAssign`, which both drivers go through. -/
def scanNullableString : Option String → Except String String
  | some s => .ok s
  | none => .error "sql: Scan error: converting NULL to string is unsupported"

/-- The bucket-format classification shared by both
`GetTimelineHistogram` implementations: same calendar day → hourly,
same month → daily, same year (different month) → daily, different
years → monthly.  Go slices bytes (`minDate[:10]`); the date strings are
ASCII, so `String.take` is the faithful embedding. -/
def chooseBucketFormat (minDate maxDate : String) : String :=
  let bucketFormat := "%Y-%m-%d %H:00:00"
  if minDate.length ≥ 10 && maxDate.length ≥ 10 then
    let minDay := minDate.take 10
    let maxDay := maxDate.take 10
    if minDay == maxDay then
      "%Y-%m-%d %H:00:00"
    else
      let minYM := minDate.take 7
      let maxYM := maxDate.take 7
      if minYM == maxYM then
        "%Y-%m-%d"
      else
        let minYear := minDate.take 4
        let maxYear := maxDate.take 4
        if minYear != maxYear then "%Y-%m" else "%Y-%m-%d"
  else bucketFormat

/-- The GROUP BY query both histogram implementations build from the
chosen bucket expression. -/
def histogramSQL (bucketExpr whereClause : String) : String :=
  "SELECT " ++ bucketExpr ++ " as bucket, COUNT(*) as cnt FROM log2timeline"
    ++ (if whereClause != "" then " " ++ whereClause else "")
    ++ " GROUP BY bucket ORDER BY bucket"

/-- `SQLiteStore.GetTimelineHistogram`.  `rangeRow` is the driver's row
for `SELECT MIN(datetime), MAX(datetime)` (NULL per column when no rows
match, since SQLite's MIN/MAX over an empty set is NULL and this query
has no COALESCE); `groupRows` is the engine's answer to the grouped
query.  The second component records whether the grouped query ran. -/
def SQLiteGetTimelineHistogram (rangeRow : Option String × Option String)
    (groupRows : String → List TimelineBucket) (whereClause : String) :
    Except String (List TimelineBucket) × Bool :=
  match scanNullableString rangeRow.1 with
  | .error e => (.error ("getting date range: " ++ e), false)
  | .ok minDate =>
      match scanNullableString rangeRow.2 with
      | .error e => (.error ("getting date range: " ++ e), false)
      | .ok maxDate =>
          if minDate == "" || maxDate == "" then
            (.ok [], false)
          else
            let bucketFormat := chooseBucketFormat minDate maxDate
            let bucketExpr := sqliteDateFormatSQL "datetime" bucketFormat
            (.ok (groupRows (histogramSQL bucketExpr whereClause)), true)

/-- `PostgresStore.GetTimelineHistogram`.  Its range query wraps MIN/MAX
in `COALESCE(to_char(...), '')`, so a NULL reaches `Scan` as `''`. -/
def PostgresGetTimelineHistogram (rangeRow : Option String × Option String)
    (groupRows : String → List TimelineBucket) (whereClause : String) :
    Except String (List TimelineBucket) × Bool :=
  let minDate := rangeRow.1.getD ""
  let maxDate := rangeRow.2.getD ""
  if minDate == "" || maxDate == "" then
    (.ok [], false)
  else
    let bucketFormat := chooseBucketFormat minDate maxDate
    let bucketExpr := pgDateFormatSQL "datetime" bucketFormat
    (.ok (groupRows (histogramSQL bucketExpr whereClause)), true)

end database

/-! ## Helper definitions and lemmas for the theorems -/

namespace query

/-- Predicates constructible through the exported algebra (`Simple`,
`DateRange`, `Combine`): no zero-value `pnone` node appears. -/
def Predicate.wf : Predicate → Bool
  | .pnone => false
  | .simple _ _ _ => true
  | .date _ _ => true
  | .composite l r _ => l.wf && r.wf

lemma append_ne_empty_left (s t : String) (h : s ≠ "") : (s ++ t) ≠ "" := by
  intro he
  apply h
  have h2 := congrArg String.length he
  simp [String.length_append] at h2
  have hd : s.data = [] := List.length_eq_zero.mp h2.1
  cases s
  simp_all

lemma paren_append_ne_empty (s : String) : ("(" ++ s) ≠ "" :=
  append_ne_empty_left "(" s (by decide)

/-- Every algebra-constructible predicate renders to a non-empty WHERE
fragment under the default (SQLite) dialect. -/
lemma wf_render_ne_empty (p : Predicate) (hp : p.wf = true) (i : Nat) :
    (p.whereClauseWithDialect DefaultDialect i).1 ≠ "" := by
  induction p generalizing i with
  | pnone => simp [Predicate.wf] at hp
  | simple field op value =>
      unfold Predicate.whereClauseWithDialect
      split
      · exact append_ne_empty_left _ _ (append_ne_empty_left _ _
          (append_ne_empty_left _ _ (append_ne_empty_left _ _
            (paren_append_ne_empty _))))
      · exact append_ne_empty_left _ _ (append_ne_empty_left _ _
          (append_ne_empty_left _ _ (append_ne_empty_left _ _
            (paren_append_ne_empty _))))
  | date d1 d2 =>
      unfold Predicate.whereClauseWithDialect
      simp [DefaultDialect, sqliteQueryDialect]
  | composite l r lg ihl ihr =>
      simp only [Predicate.wf, Bool.and_eq_true] at hp
      unfold Predicate.whereClauseWithDialect
      have h1 := ihl hp.1 i
      have h2 := ihr hp.2 ((l.whereClauseWithDialect DefaultDialect i).2.2)
      simp only [beq_eq_false_iff_ne.mpr h1, beq_eq_false_iff_ne.mpr h2,
        Bool.false_and, Bool.false_eq_true, if_false]
      exact append_ne_empty_left _ _ (append_ne_empty_left _ _
        (append_ne_empty_left _ _ (append_ne_empty_left _ _
          (paren_append_ne_empty _))))

end query

namespace query

lemma and_infix_append (x y : String) :
    x ++ " " ++ "AND" ++ " " ++ y = x ++ " AND " ++ y := by
  have h : (" " : String) ++ ("AND" ++ " ") = " AND " := rfl
  rw [String.append_assoc (x ++ " ") "AND" " ", String.append_assoc x " " ("AND" ++ " "), h]

/-- Rendering a binary AND composite of two algebra-constructible
predicates under the default dialect. -/
lemma composite_and_render (pa pb : Predicate)
    (ha : pa.wf = true) (hb : pb.wf = true) (i : Nat) :
    ((Predicate.composite pa pb .AND).whereClauseWithDialect DefaultDialect i) =
      (let A := pa.whereClauseWithDialect DefaultDialect i
       let B := pb.whereClauseWithDialect DefaultDialect A.2.2
       ("(" ++ A.1 ++ " AND " ++ B.1 ++ ")", A.2.1 ++ B.2.1, B.2.2)) := by
  have hA := wf_render_ne_empty pa ha i
  have hB := wf_render_ne_empty pb hb
    ((pa.whereClauseWithDialect DefaultDialect i).2.2)
  simp only [Predicate.whereClauseWithDialect, beq_eq_false_iff_ne.mpr hA,
    beq_eq_false_iff_ne.mpr hB, Bool.false_and, Bool.false_eq_true, if_false]
  rw [if_neg (by decide : ¬(Logic.AND = Logic.OR))]
  rw [and_infix_append]

end query

/-! ## Claims -/

namespace query

/-- C1: `Simple(f, op, v)` is non-absent iff `f` is in the `model.Fields`
whitelist and `op` is one of the six supported operators; when a simple
predicate renders to SQL, LIKE and NOT LIKE emit the bound argument
`%v%` while every other operator emits `v` verbatim. -/
theorem simple_whitelist_and_wildcards (field op value : String)
    (d : QueryDialect) (startIdx : Nat) :
    ((Simple field op value).isSome
        ↔ (isValidField field = true ∧ validOperators op = true)) ∧
    (∀ p : Predicate, Simple field op value = some p →
      (p.whereClauseWithDialect d startIdx).2.1 =
        (if op = Like ∨ op = NotLike then ["%" ++ value ++ "%"] else [value])) := by
  constructor
  · unfold Simple
    by_cases hf : isValidField field = true
    · by_cases ho : validOperators op = true
      · simp [hf, ho]
      · simp [hf, ho]
    · simp [hf]
  · intro p hp
    unfold Simple at hp
    split at hp
    · exact absurd hp (by simp)
    · injection hp with hp
      subst hp
      unfold Predicate.whereClauseWithDialect
      by_cases hop : (op == Like || op == NotLike) = true
      · have hlk : op = Like ∨ op = NotLike := by
          rcases Bool.or_eq_true_iff.mp hop with h | h
          · exact Or.inl (by simpa using h)
          · exact Or.inr (by simpa using h)
        simp [hop, hlk]
      · have hlk : ¬(op = Like ∨ op = NotLike) := by
          intro h
          apply hop
          rcases h with h | h <;> simp [h]
        simp [hop, hlk]

/-- Witness for C1 at a concrete input. -/
theorem simple_whitelist_and_wildcards_witness :
    ((Simple "source" "LIKE" "abc").isSome
        ↔ (isValidField "source" = true ∧ validOperators "LIKE" = true)) ∧
    ((Predicate.simple "source" "LIKE" "abc").whereClauseWithDialect
        DefaultDialect 1).2.1 =
      (if "LIKE" = Like ∨ "LIKE" = NotLike then ["%" ++ "abc" ++ "%"] else ["abc"]) :=
  ⟨(simple_whitelist_and_wildcards "source" "LIKE" "abc" DefaultDialect 1).1,
   (simple_whitelist_and_wildcards "source" "LIKE" "abc" DefaultDialect 1).2
     (Predicate.simple "source" "LIKE" "abc") (by decide)⟩

/-- C3: `Combine` is absent on the empty list, silently drops absent
elements before folding, returns a singleton's predicate unchanged, and
for three algebra-constructible predicates with AND logic yields the
left-leaning tree rendering as `((p1 AND p2) AND p3)` with the argument
list in `p1, p2, p3` order. -/
theorem combine_fold_and_render (p1 p2 p3 : Predicate)
    (ps : List (Option Predicate)) (lg : Logic) (i : Nat)
    (h1 : p1.wf = true) (h2 : p2.wf = true) (h3 : p3.wf = true) :
    Combine [] lg = none ∧
    Combine ps lg = Combine ((ps.filterMap id).map some) lg ∧
    Combine [some p1] lg = some p1 ∧
    Combine [some p1, some p2, some p3] Logic.AND =
      some (.composite (.composite p1 p2 .AND) p3 .AND) ∧
    ((Predicate.composite (.composite p1 p2 .AND) p3 .AND).whereClauseWithDialect
        DefaultDialect i) =
      (let r1 := p1.whereClauseWithDialect DefaultDialect i
       let r2 := p2.whereClauseWithDialect DefaultDialect r1.2.2
       let r3 := p3.whereClauseWithDialect DefaultDialect r2.2.2
       ("(" ++ ("(" ++ r1.1 ++ " AND " ++ r2.1 ++ ")") ++ " AND " ++ r3.1 ++ ")",
        (r1.2.1 ++ r2.2.1) ++ r3.2.1, r3.2.2)) := by
  refine ⟨rfl, ?_, rfl, rfl, ?_⟩
  · have hfm : ((ps.filterMap id).map some).filterMap id = ps.filterMap id := by
      rw [List.filterMap_map]
      simp
    unfold Combine
    rw [hfm]
  · have h12 : (Predicate.composite p1 p2 .AND).wf = true := by
      simp [Predicate.wf, h1, h2]
    rw [composite_and_render _ _ h12 h3 i, composite_and_render _ _ h1 h2 i]

/-- Witness for C3 at concrete inputs. -/
theorem combine_fold_and_render_witness :
    Combine [] Logic.AND = none ∧
    Combine ([] : List (Option Predicate)) Logic.AND =
      Combine ((([] : List (Option Predicate)).filterMap id).map some) Logic.AND ∧
    Combine [some (Predicate.simple "source" "=" "a")] Logic.AND =
      some (Predicate.simple "source" "=" "a") ∧
    Combine [some (Predicate.simple "source" "=" "a"),
             some (Predicate.simple "host" "=" "b"),
             some (Predicate.simple "user" "=" "c")] Logic.AND =
      some (.composite (.composite (.simple "source" "=" "a")
              (.simple "host" "=" "b") .AND) (.simple "user" "=" "c") .AND) ∧
    ((Predicate.composite (.composite (.simple "source" "=" "a")
          (.simple "host" "=" "b") .AND) (.simple "user" "=" "c")
          .AND).whereClauseWithDialect DefaultDialect 1) =
      (let r1 := (Predicate.simple "source" "=" "a").whereClauseWithDialect
          DefaultDialect 1
       let r2 := (Predicate.simple "host" "=" "b").whereClauseWithDialect
          DefaultDialect r1.2.2
       let r3 := (Predicate.simple "user" "=" "c").whereClauseWithDialect
          DefaultDialect r2.2.2
       ("(" ++ ("(" ++ r1.1 ++ " AND " ++ r2.1 ++ ")") ++ " AND " ++ r3.1 ++ ")",
        (r1.2.1 ++ r2.2.1) ++ r3.2.1, r3.2.2)) :=
  combine_fold_and_render (Predicate.simple "source" "=" "a")
    (Predicate.simple "host" "=" "b") (Predicate.simple "user" "=" "c")
    [] Logic.AND 1 (by decide) (by decide) (by decide)

/-- The WHERE fragment (with its leading space) and argument list that
`Build` and `BuildCount` both compute from the predicate list. -/
def Query.whereFragment (q : Query) : String × List String :=
  if q.predicates.length > 0 then
    match Combine (q.predicates.map some) q.logic with
    | some combined =>
        let r := combined.whereClauseWithDialect q.dialect 1
        if r.1 != "" then (" WHERE " ++ r.1, r.2.1) else ("", [])
    | none => ("", [])
  else ("", [])

/-- The ordering clause `Build` appends. -/
def Query.orderClause (q : Query) : String :=
  if q.orderBy != "" then " ORDER BY " ++ q.dialect.QuoteColumn q.orderBy else ""

/-- The pagination clause `Build` appends. -/
def Query.limitClause (q : Query) : String :=
  if q.pageSize > 0 then
    " LIMIT " ++ toString q.pageSize ++ " OFFSET "
      ++ toString (q.pageSize * (q.page - 1))
  else ""

/-- The SELECT projection `Build` uses. -/
def Query.selectColumns (q : Query) : String :=
  q.dialect.IDColumn ++ ", "
    ++ String.intercalate ", " (model.Fields.map q.dialect.QuoteColumn)

lemma whereTuple_spec (q : Query) (base : String) :
    (if q.predicates.length > 0 then
       match Combine (q.predicates.map some) q.logic with
       | some combined =>
           if (combined.whereClauseWithDialect q.dialect 1).1 != "" then
             (base ++ " WHERE " ++ (combined.whereClauseWithDialect q.dialect 1).1,
              (combined.whereClauseWithDialect q.dialect 1).2.1)
           else (base, ([] : List String))
       | none => (base, ([] : List String))
     else (base, ([] : List String)))
    = (base ++ q.whereFragment.1, q.whereFragment.2) := by
  unfold Query.whereFragment
  split
  · split
    · split
      · simp_all [bne_iff_ne, String.append_assoc]
      · simp_all [bne_iff_ne]
    · simp
  · simp

/-- C4: for every Query, `Build` and `BuildCount` produce the identical
WHERE fragment and the identical argument list; they differ only in the
SELECT projection and in the ordering/pagination clauses `Build` appends. -/
theorem build_and_buildcount_share_where (q : Query) :
    q.Build = ("SELECT " ++ q.selectColumns ++ " FROM log2timeline"
        ++ q.whereFragment.1 ++ q.orderClause ++ q.limitClause,
      q.whereFragment.2) ∧
    q.BuildCount = ("SELECT COUNT(" ++ q.dialect.IDColumn ++ ") FROM log2timeline"
        ++ q.whereFragment.1, q.whereFragment.2) := by
  constructor
  · simp only [Query.Build, Query.selectColumns, Query.orderClause, Query.limitClause]
    rw [whereTuple_spec q]
    by_cases ho : (q.orderBy != "") = true <;>
      by_cases hp : q.pageSize > 0 <;>
        simp [ho, hp, String.append_assoc]
  · simp only [Query.BuildCount]
    rw [whereTuple_spec q]

/-- C7: for every Query and non-empty field name, `OrderBy` errors iff the
field is neither in the whitelist nor the dialect's id column; an error
leaves the query (hence the stored order column) unchanged; `OrderBy ""`
clears the ordering and succeeds. -/
theorem orderby_whitelist_validation (q : Query) (f : String) (hf : f ≠ "") :
    ((q.OrderBy f).2.isSome
        ↔ (isValidField f = false ∧ f ≠ q.dialect.IDColumn)) ∧
    ((q.OrderBy f).2.isSome → (q.OrderBy f).1 = q) ∧
    (q.OrderBy "").1 = { q with orderBy := "" } ∧
    (q.OrderBy "").2 = none := by
  have hfb : (f == "") = false := beq_eq_false_iff_ne.mpr hf
  by_cases hv : isValidField f = true
  · have hc : (!(isValidField f) && f != q.dialect.IDColumn) = false := by
      simp [hv]
    refine ⟨?_, ?_, by simp [Query.OrderBy], by simp [Query.OrderBy]⟩
    · simp [Query.OrderBy, hfb, hc, hv]
    · simp [Query.OrderBy, hfb, hc]
  · have hv' : isValidField f = false := by simpa using hv
    by_cases hid : f = q.dialect.IDColumn
    · have hc : (!(isValidField f) && f != q.dialect.IDColumn) = false := by
        simp [hid]
      refine ⟨?_, ?_, by simp [Query.OrderBy], by simp [Query.OrderBy]⟩
      · simp [Query.OrderBy, hfb, hc, hid]
        split <;> rfl
      · simp [Query.OrderBy, hfb, hc]
    · have hc : (!(isValidField f) && f != q.dialect.IDColumn) = true := by
        simp [hv', bne_iff_ne, hid]
      refine ⟨?_, ?_, by simp [Query.OrderBy], by simp [Query.OrderBy]⟩
      · simp [Query.OrderBy, hfb, hc, hv', hid]
      · simp [Query.OrderBy, hfb, hc]

/-- Witness for C7 at a concrete query and field name. -/
theorem orderby_whitelist_validation_witness :
    (((New 0).OrderBy "bogus").2.isSome
        ↔ (isValidField "bogus" = false ∧ "bogus" ≠ (New 0).dialect.IDColumn)) ∧
    (((New 0).OrderBy "bogus").2.isSome → ((New 0).OrderBy "bogus").1 = New 0) ∧
    ((New 0).OrderBy "").1 = { New 0 with orderBy := "" } ∧
    ((New 0).OrderBy "").2 = none :=
  orderby_whitelist_validation (New 0) "bogus" (by decide)

end query

namespace app

/-- C9: "bookmark" is not in the `model.Fields` whitelist, so
`Simple("bookmark", =, "1")` is absent and `AddPredicate` ignores it;
hence the SQL strings and argument lists `QueryEvents` builds are
identical whether `BookmarkOnly` is true or false. -/
theorem bookmark_filter_no_effect (d : query.QueryDialect) (req : QueryRequest) :
    query.Simple "bookmark" query.Equal "1" = none ∧
    (∀ q : query.Query, q.AddPredicate none = q) ∧
    QueryEventsSQL d { req with BookmarkOnly := true }
      = QueryEventsSQL d { req with BookmarkOnly := false } := by
  have hs : query.Simple "bookmark" query.Equal "1" = none := by decide
  refine ⟨hs, fun q => rfl, ?_⟩
  unfold QueryEventsSQL buildQuery
  simp [hs, query.Query.AddPredicate]

end app

namespace legacyquery

open query (Logic Predicate DefaultDialect sqliteQueryDialect Combine)

lemma merge_q_append (x : String) : x ++ " " ++ "?" ++ ")" = x ++ " ?)" := by
  rw [String.append_assoc (x ++ " ") "?" ")", String.append_assoc x " " ("?" ++ ")")]
  rfl

/-- Rendering with the default SQLite dialect at any placeholder index
agrees with the legacy dialect-free renderer. -/
lemma whereclause_default_eq_legacy (p : Predicate) :
    ∀ i, ((p.whereClauseWithDialect DefaultDialect i).1,
          (p.whereClauseWithDialect DefaultDialect i).2.1)
      = WhereClause p := by
  induction p with
  | pnone => intro i; rfl
  | simple field op value =>
      intro i
      simp only [Predicate.whereClauseWithDialect, WhereClause,
        DefaultDialect, sqliteQueryDialect]
      split
      · exact congrArg (fun s => (s, ["%" ++ value ++ "%"])) (merge_q_append _)
      · exact congrArg (fun s => (s, [value])) (merge_q_append _)
  | date d1 d2 => intro i; rfl
  | composite l r lg ihl ihr =>
      intro i
      have hl := ihl i
      have hr := ihr ((l.whereClauseWithDialect DefaultDialect i).2.2)
      have hl1 := congrArg Prod.fst hl
      have hl2 := congrArg Prod.snd hl
      have hr1 := congrArg Prod.fst hr
      have hr2 := congrArg Prod.snd hr
      simp only at hl1 hl2 hr1 hr2
      simp only [Predicate.whereClauseWithDialect, WhereClause]
      rw [hl1, hl2, hr1, hr2]
      by_cases h1 : ((WhereClause l).1 == "") = true <;>
        by_cases h2 : ((WhereClause r).1 == "") = true <;>
          simp [h1, h2]

/-- C10: for every predicate tree and Query configuration, the legacy
SQLite-only builder (`WhereClause`/`Build`/`BuildCount` without a dialect
parameter) and the dialect-parameterized builder instantiated with the
default SQLite dialect produce identical SQL strings and identical
argument lists. -/
theorem legacy_and_dialect_builders_agree (preds : List Predicate) (lg : Logic)
    (ob : String) (psize pg : Int) (p : Predicate) (i : Nat) :
    ((p.whereClauseWithDialect DefaultDialect i).1,
      (p.whereClauseWithDialect DefaultDialect i).2.1) = WhereClause p ∧
    (query.Query.mk preds lg ob psize pg DefaultDialect).Build
      = (Query.mk preds lg ob psize pg).Build ∧
    (query.Query.mk preds lg ob psize pg DefaultDialect).BuildCount
      = (Query.mk preds lg ob psize pg).BuildCount := by
  have hid : DefaultDialect.IDColumn = "rowid" := rfl
  have hqc : DefaultDialect.QuoteColumn ob = ob := rfl
  have hmap : model.Fields.map DefaultDialect.QuoteColumn = model.Fields := rfl
  have hhead : ("rowid" : String) ++ ", " = "rowid, " := rfl
  have hcount : ("SELECT COUNT(" : String) ++ "rowid" ++ ") FROM log2timeline"
      = "SELECT COUNT(rowid) FROM log2timeline" := rfl
  refine ⟨whereclause_default_eq_legacy p i, ?_, ?_⟩
  · simp only [query.Query.Build, Query.Build, hid, hqc, hmap, hhead]
    cases hc : Combine (preds.map some) lg with
    | none =>
        by_cases hlen : preds.length > 0 <;>
          by_cases hob : (ob != "") = true <;>
            by_cases hps : psize > 0 <;>
              simp [hlen, hob, hps]
    | some combined =>
        have h1 := congrArg Prod.fst (whereclause_default_eq_legacy combined 1)
        have h2 := congrArg Prod.snd (whereclause_default_eq_legacy combined 1)
        simp only at h1 h2
        by_cases hlen : preds.length > 0 <;>
          by_cases hr : ((WhereClause combined).1 != "") = true <;>
            by_cases hob : (ob != "") = true <;>
              by_cases hps : psize > 0 <;>
                simp [hlen, hr, hob, hps, h1, h2]
  · simp only [query.Query.BuildCount, Query.BuildCount, hid, hcount]
    cases hc : Combine (preds.map some) lg with
    | none => simp
    | some combined =>
        have h1 := congrArg Prod.fst (whereclause_default_eq_legacy combined 1)
        have h2 := congrArg Prod.snd (whereclause_default_eq_legacy combined 1)
        simp only at h1 h2
        by_cases hlen : preds.length > 0 <;>
          by_cases hr : ((WhereClause combined).1 != "") = true <;>
            simp [hlen, hr, h1, h2]

end legacyquery

namespace database

lemma progressCallsFrom_succ (start n : Nat) :
    progressCallsFrom start (n + 1)
      = (if (start + 1) % 10000 == 0 then [start + 1] else [])
        ++ progressCallsFrom (start + 1) n := by
  unfold progressCallsFrom
  rw [List.range_succ_eq_map, List.filterMap_cons, List.filterMap_map]
  have hfun : ((fun i => if (start + i + 1) % 10000 == 0
        then some (start + i + 1) else none) ∘ (· + 1))
      = (fun i => if (start + 1 + i + 1) % 10000 == 0
        then some (start + 1 + i + 1) else none) := by
    funext j
    have harg : start + (j + 1) + 1 = start + 1 + j + 1 := by omega
    simp [Function.comp, harg]
  rw [hfun]
  simp only [Nat.add_zero]
  cases h0 : ((start + 1) % 10000 == 0) <;> simp [h0]

lemma insertLoop_no_fail {α : Type} (fail : Nat → Bool) (events : List α) :
    ∀ start, (∀ j, start < j → j ≤ start + events.length → fail j = false) →
    insertLoop fail true events start
      = (start + events.length, false, progressCallsFrom start events.length) := by
  induction events with
  | nil =>
      intro start _
      simp [insertLoop, progressCallsFrom]
  | cons e rest ih =>
      intro start h
      have hf : fail (start + 1) = false :=
        h (start + 1) (by omega) (by simp [List.length_cons])
      have hrec := ih (start + 1) (fun j hj1 hj2 => by
        refine h j (by omega) ?_
        simp [List.length_cons]
        omega)
      unfold insertLoop
      rw [hf]
      simp only [Bool.false_eq_true, if_false, hrec, Bool.true_and]
      have hn : start + 1 + rest.length = start + (e :: rest).length := by
        simp [List.length_cons]
        omega
      rw [hn, List.length_cons, progressCallsFrom_succ]

lemma insertLoop_first_fail {α : Type} (fail : Nat → Bool) (events : List α) :
    ∀ start k, start < k → k ≤ start + events.length → fail k = true →
    (∀ j, start < j → j < k → fail j = false) →
    insertLoop fail true events start
      = (k - 1, true, progressCallsFrom start (k - 1 - start)) := by
  induction events with
  | nil =>
      intro start k h1 h2 _ _
      simp at h2
      omega
  | cons e rest ih =>
      intro start k h1 h2 h3 h4
      by_cases hk : k = start + 1
      · subst hk
        unfold insertLoop
        rw [h3]
        simp [progressCallsFrom]
      · have hf : fail (start + 1) = false := h4 (start + 1) (by omega) (by omega)
        have hrec := ih (start + 1) k (by omega)
          (by simp [List.length_cons] at h2; omega) h3
          (fun j hj1 hj2 => h4 j (by omega) hj2)
        unfold insertLoop
        rw [hf]
        simp only [Bool.false_eq_true, if_false, hrec, Bool.true_and]
        have hm : k - 1 - start = (k - 1 - (start + 1)) + 1 := by omega
        rw [hm, progressCallsFrom_succ]

/-- C2: `InsertEvents` is transactional on both backends: if the insert of
row `k` (the first failure) fails, the rollback leaves the table with zero
new rows and the call reports count `k−1` with the error; if no row fails,
all `N` rows are committed and `N` is returned; with a non-nil progress
callback, it fires exactly after every 10,000th successful insert with
the running count. -/
theorem insertevents_transactional {α : Type} (table events : List α)
    (fail : Nat → Bool) (k : Nat) :
    (1 ≤ k → k ≤ events.length → fail k = true →
      (∀ j, 1 ≤ j → j < k → fail j = false) →
      InsertEvents table events fail true
        = (table, k - 1, true, progressCallsFrom 0 (k - 1))) ∧
    ((∀ j, 1 ≤ j → j ≤ events.length → fail j = false) →
      InsertEvents table events fail true
        = (table ++ events, events.length, false,
           progressCallsFrom 0 events.length)) := by
  constructor
  · intro h1 h2 h3 h4
    have hloop := insertLoop_first_fail fail events 0 k (by omega) (by omega) h3
      (fun j hj1 hj2 => h4 j (by omega) hj2)
    unfold InsertEvents
    rw [hloop]
    simp
  · intro h
    have hloop := insertLoop_no_fail fail events 0
      (fun j hj1 hj2 => h j (by omega) (by omega))
    unfold InsertEvents
    rw [hloop]
    simp

/-- Witness for C2: a failure on row 2 of 3 leaves the table unchanged and
reports count 1; the no-failure run commits all 3 rows and reports 3. -/
theorem insertevents_transactional_witness :
    InsertEvents [1, 2] [10, 20, 30] (fun n => n == 2) true
      = ([1, 2], 1, true, []) ∧
    InsertEvents ([] : List Nat) [10, 20, 30] (fun _ => false) true
      = ([10, 20, 30], 3, false, []) := by
  constructor
  · have h := (insertevents_transactional [1, 2] [10, 20, 30]
        (fun n => n == 2) 2).1 (by decide) (by decide) (by decide)
      (fun j hj1 hj2 => by
        have hne : j ≠ 2 := by omega
        simpa using hne)
    simpa using h
  · have h := (insertevents_transactional ([] : List Nat) [10, 20, 30]
        (fun _ => false) 2).2 (fun j _ _ => rfl)
    simpa using h

lemma string_take_take (s : String) (m n : Nat) (h : n ≤ m) :
    (s.take m).take n = s.take n := by
  apply String.ext
  simp [String.data_take, List.take_take, Nat.min_eq_left h]

lemma string_length_ge_ne_empty (s : String) (h : s.length ≥ 10) : s ≠ "" := by
  intro he
  subst he
  simp at h

/-- C5: `GetTimelineHistogram` classifies the filtered min/max span —
same calendar day → hourly, same month (different day) → daily, same year
(different month) → daily, different years → monthly — and runs one
grouped query whose SQL orders the (bucket, count) pairs by bucket label. -/
theorem histogram_bucket_granularity (minDate maxDate : String)
    (hmin : minDate.length ≥ 10) (hmax : maxDate.length ≥ 10) :
    (minDate.take 10 = maxDate.take 10 →
       chooseBucketFormat minDate maxDate = "%Y-%m-%d %H:00:00") ∧
    (minDate.take 10 ≠ maxDate.take 10 → minDate.take 7 = maxDate.take 7 →
       chooseBucketFormat minDate maxDate = "%Y-%m-%d") ∧
    (minDate.take 7 ≠ maxDate.take 7 → minDate.take 4 = maxDate.take 4 →
       chooseBucketFormat minDate maxDate = "%Y-%m-%d") ∧
    (minDate.take 4 ≠ maxDate.take 4 →
       chooseBucketFormat minDate maxDate = "%Y-%m") ∧
    (∀ bucketExpr whereClause, ∃ s, histogramSQL bucketExpr whereClause
       = s ++ " GROUP BY bucket ORDER BY bucket") ∧
    (∀ g w, SQLiteGetTimelineHistogram (some minDate, some maxDate) g w
       = (.ok (g (histogramSQL
            (sqliteDateFormatSQL "datetime" (chooseBucketFormat minDate maxDate)) w)),
          true)) := by
  have h710 : minDate.take 10 = maxDate.take 10 → minDate.take 7 = maxDate.take 7 := by
    intro h
    rw [← string_take_take minDate 10 7 (by omega),
      ← string_take_take maxDate 10 7 (by omega), h]
  have h47 : minDate.take 7 = maxDate.take 7 → minDate.take 4 = maxDate.take 4 := by
    intro h
    rw [← string_take_take minDate 7 4 (by omega),
      ← string_take_take maxDate 7 4 (by omega), h]
  refine ⟨?_, ?_, ?_, ?_, ?_, ?_⟩
  · intro h10
    simp [chooseBucketFormat, hmin, hmax, h10]
  · intro h10 h7
    simp [chooseBucketFormat, hmin, hmax, h10, h7]
  · intro h7 h4
    have h10 : minDate.take 10 ≠ maxDate.take 10 := fun h => h7 (h710 h)
    simp [chooseBucketFormat, hmin, hmax, h10, h7, h4]
  · intro h4
    have h7 : minDate.take 7 ≠ maxDate.take 7 := fun h => h4 (h47 h)
    have h10 : minDate.take 10 ≠ maxDate.take 10 := fun h => h7 (h710 h)
    simp [chooseBucketFormat, hmin, hmax, h10, h7, h4]
  · intro bucketExpr whereClause
    exact ⟨_, rfl⟩
  · intro g w
    have hne1 : minDate ≠ "" := string_length_ge_ne_empty minDate hmin
    have hne2 : maxDate ≠ "" := string_length_ge_ne_empty maxDate hmax
    simp [SQLiteGetTimelineHistogram, scanNullableString,
      beq_eq_false_iff_ne.mpr hne1, beq_eq_false_iff_ne.mpr hne2]

/-- Witness for C5: the four concrete span shapes select hourly, daily,
daily, and monthly bucket formats. -/
theorem histogram_bucket_granularity_witness :
    chooseBucketFormat "2020-01-01 00:00:00" "2020-01-01 23:59:59"
      = "%Y-%m-%d %H:00:00" ∧
    chooseBucketFormat "2020-01-01 00:00:00" "2020-01-15 00:00:00" = "%Y-%m-%d" ∧
    chooseBucketFormat "2020-01-01 00:00:00" "2020-03-01 00:00:00" = "%Y-%m-%d" ∧
    chooseBucketFormat "2020-01-01 00:00:00" "2021-01-01 00:00:00" = "%Y-%m" := by
  refine ⟨?_, ?_, ?_, ?_⟩
  · exact (histogram_bucket_granularity "2020-01-01 00:00:00" "2020-01-01 23:59:59"
      (by decide) (by decide)).1 (by decide)
  · exact (histogram_bucket_granularity "2020-01-01 00:00:00" "2020-01-15 00:00:00"
      (by decide) (by decide)).2.1 (by decide) (by decide)
  · exact (histogram_bucket_granularity "2020-01-01 00:00:00" "2020-03-01 00:00:00"
      (by decide) (by decide)).2.2.1 (by decide) (by decide)
  · exact (histogram_bucket_granularity "2020-01-01 00:00:00" "2021-01-01 00:00:00"
      (by decide) (by decide)).2.2.2.1 (by decide)

/-- C6 (divergence at the failing input): with zero matching rows the
range row is (NULL, NULL).  The SQLite implementation, whose range query
has no COALESCE, surfaces a Scan conversion error instead of the empty
bucket list (though the grouped query indeed never runs); the Postgres
implementation, which COALESCEs to '', returns the empty list without
error as the claim states. -/
theorem histogram_empty_range_divergence (g : String → List TimelineBucket)
    (w : String) :
    SQLiteGetTimelineHistogram (none, none) g w
      = (.error ("getting date range: "
          ++ "sql: Scan error: converting NULL to string is unsupported"), false) ∧
    PostgresGetTimelineHistogram (none, none) g w = (.ok [], false) :=
  ⟨rfl, rfl⟩

/-- C8: the additive bookmark migration never surfaces an error: probe and
ALTER failures are swallowed, `Migrate` always returns nil, and the
open flow shared by `OpenSQLite`/`OpenPostgres` succeeds whenever open and
ping succeed, regardless of migration outcomes. -/
theorem migration_errors_swallowed (probe : Except String Int)
    (alter : Except String Unit) :
    Migrate probe alter = Except.ok () ∧
    (migrateRun probe alter).2 = none ∧
    OpenStoreFlow (.ok ()) (.ok ()) probe alter = .ok () := by
  refine ⟨rfl, ?_, rfl⟩
  unfold migrateRun
  cases probe with
  | ok c => by_cases h : (c == 0) = true <;> simp [h]
  | error e => rfl

end database

end FourN6
